import Mathlib

/-!
Shallow embedding of the minicms registration workflow (the Registration
Profile Store of spec.md §3–§4).  The repository ships only the test suite
for this component (`src/registration/tests/models.py`); the manager and
model code itself is not present, so the operations below are modelled
from the specification's own description of them.  Time is measured in
days as natural numbers; the activation window (`ACCOUNT_ACTIVATION_DAYS`)
is a configuration value.
-/

namespace Registration

/-- Modelled from the spec: a User Directory entry — identity, email,
the active/inactive flag and the join timestamp (spec §2, §6). -/
structure User where
  id : Nat
  username : String
  email : String
  is_active : Bool
  date_joined : Nat
deriving Repr, DecidableEq

/-- Modelled from the spec: a Registration Profile row — owning user
reference, activation token and the `activated` flag (spec §3). -/
structure Profile where
  id : Nat
  userId : Nat
  activation_key : String
  activated : Bool
deriving Repr, DecidableEq

/-- Kinds of notification the store can emit (spec §4.1, notification
construction). -/
inductive EmailKind where
  | activationMail
  | adminApprove
  | approveComplete
deriving Repr, DecidableEq

/-- Modelled from the spec: one outbound notification with its
recipient list (spec §6, Notifier contract). -/
structure Email where
  kind : EmailKind
  recipients : List String
deriving Repr, DecidableEq

/-- Modelled from the spec: the configuration surface read by the core —
activation window length and the administrator contact list (spec §6). -/
structure Config where
  window : Nat
  admins : List String
deriving Repr, DecidableEq

/-- Modelled from the spec: the mutable state an operation acts on — the
user directory, the profile store, and the notifier's outbox (spec §2). -/
structure Store where
  users : List User
  profiles : List Profile
  outbox : List Email
deriving Repr, DecidableEq

/-- Modelled from the spec: the two workflow variants — self-service
activation versus two-step admin approval (spec glossary). -/
inductive Variant where
  | standard
  | supervised
deriving Repr, DecidableEq

/-- Modelled from the spec: the sentinel constant written over a consumed
activation key ("a fixed non-hash value", spec glossary). -/
def ACTIVATED : String := "ALREADY_ACTIVATED"

/-- Lowercase hexadecimal digit test, by code point. -/
def isLowerHexChar (c : Char) : Bool :=
  (decide (48 ≤ c.toNat) && decide (c.toNat ≤ 57)) ||
  (decide (97 ≤ c.toNat) && decide (c.toNat ≤ 102))

/-- Modelled from the spec: the required key shape — a 40-character
lowercase hexadecimal string (spec §3, §4.1). -/
def isSHA1Key (s : String) : Bool :=
  decide (s.length = 40) && s.data.all isLowerHexChar

/-- Look a user up by id in the directory. -/
def findUser (users : List User) (uid : Nat) : Option User :=
  users.find? (fun u => u.id == uid)

/-- Look a user up by email address. -/
def findUserByEmail (users : List User) (email : String) : Option User :=
  users.find? (fun u => u.email == email)

/-- Look a profile up by exact activation-key match. -/
def findProfileByKey (ps : List Profile) (key : String) : Option Profile :=
  ps.find? (fun p => p.activation_key == key)

/-- Look a profile up by its id. -/
def findProfileById (ps : List Profile) (pid : Nat) : Option Profile :=
  ps.find? (fun p => p.id == pid)

/-- Look a profile up by its owning user's id. -/
def findProfileByUser (ps : List Profile) (uid : Nat) : Option Profile :=
  ps.find? (fun p => p.userId == uid)

/-- Persist a user row: replace the directory entry with the same id. -/
def updateUser (users : List User) (u : User) : List User :=
  users.map (fun x => if x.id == u.id then u else x)

/-- Persist a profile row: replace the stored profile with the same id. -/
def updateProfile (ps : List Profile) (p : Profile) : List Profile :=
  ps.map (fun x => if x.id == p.id then p else x)

/-- Modelled from the spec: `activation_key_expired` — true iff the key is
the sentinel or `user.date_joined + ACCOUNT_ACTIVATION_DAYS <= now`, the
boundary instant counting as expired (spec §4.1). -/
def activation_key_expired (cfg : Config) (now : Nat) (u : User) (p : Profile) : Bool :=
  p.activation_key == ACTIVATED || decide (u.date_joined + cfg.window ≤ now)

/-- Modelled from the spec: `activate_user` — fails closed on a malformed
key without touching the store; otherwise looks the profile up by exact
key, fails on a missing profile or an expired key, and on success either
activates the user and consumes the key (standard variant) or marks the
profile activated and notifies the administrators (supervised variant)
(spec §4.1).  Failure is `none`; success returns the persisted user and
profile. -/
def activate_user (v : Variant) (cfg : Config) (now : Nat) (key : String)
    (s : Store) : Option (User × Profile) × Store :=
  if isSHA1Key key then
    match findProfileByKey s.profiles key with
    | none => (none, s)
    | some p =>
      match findUser s.users p.userId with
      | none => (none, s)
      | some u =>
        if activation_key_expired cfg now u p then (none, s)
        else
          match v with
          | Variant.standard =>
            let u' := { u with is_active := true }
            let p' := { p with activated := true, activation_key := ACTIVATED }
            (some (u', p'),
             { s with users := updateUser s.users u',
                      profiles := updateProfile s.profiles p' })
          | Variant.supervised =>
            let p' := { p with activated := true }
            (some (u, p'),
             { s with profiles := updateProfile s.profiles p',
                      outbox := s.outbox ++ [⟨EmailKind.adminApprove, cfg.admins⟩] })
  else (none, s)

/-- Modelled from the spec: `admin_approve_user` — fails on a missing
profile or a profile never activated, leaving state untouched; otherwise
sets the user active, persists, and sends a completion notice to the user
(spec §4.1, supervised variant only). -/
def admin_approve_user (cfg : Config) (pid : Nat) (s : Store) : Option User × Store :=
  match findProfileById s.profiles pid with
  | none => (none, s)
  | some p =>
    if p.activated then
      match findUser s.users p.userId with
      | none => (none, s)
      | some u =>
        let u' := { u with is_active := true }
        (some u',
         { s with users := updateUser s.users u',
                  outbox := s.outbox ++ [⟨EmailKind.approveComplete, [u.email]⟩] })
    else (none, s)

/-- Modelled from the spec: `resend_activation_mail` — user looked up by
email; a missing user, an already-activated profile (standard), or an
expired key yields false with no mail; otherwise the key is regenerated
and a fresh activation email is sent.  The supervised variant instead
re-sends the admin-approval notice for an activated profile whose user is
still inactive, still reporting false (spec §4.1).  Key generation is a
hash over randomness in the source, so the fresh key is an explicit
parameter supplied by the environment. -/
def resend_activation_mail (v : Variant) (cfg : Config) (now : Nat)
    (email newKey : String) (s : Store) : Bool × Store :=
  match findUserByEmail s.users email with
  | none => (false, s)
  | some u =>
    match findProfileByUser s.profiles u.id with
    | none => (false, s)
    | some p =>
      if p.activated then
        match v with
        | Variant.standard => (false, s)
        | Variant.supervised =>
          if u.is_active then (false, s)
          else (false, { s with outbox := s.outbox ++ [⟨EmailKind.adminApprove, cfg.admins⟩] })
      else if activation_key_expired cfg now u p then (false, s)
      else
        let p' := { p with activation_key := newKey }
        (true, { s with profiles := updateProfile s.profiles p',
                        outbox := s.outbox ++ [⟨EmailKind.activationMail, [u.email]⟩] })

/-- Modelled from the spec: `create_inactive_user` — creates an inactive
user whose join timestamp is reset to now when the supplied one is more
than the activation window in the past, creates the profile with the
generated key, and optionally sends the activation email (spec §4.1).
The generated key is an explicit parameter, as for resend. -/
def create_inactive_user (cfg : Config) (now : Nat) (uid pid : Nat)
    (username email : String) (suppliedJoin : Nat) (newKey : String)
    (send_email : Bool) (s : Store) : User × Store :=
  let dj := if suppliedJoin + cfg.window < now then now else suppliedJoin
  let u : User := ⟨uid, username, email, false, dj⟩
  let p : Profile := ⟨pid, uid, newKey, false⟩
  let out := if send_email then s.outbox ++ [⟨EmailKind.activationMail, [email]⟩] else s.outbox
  (u, { users := s.users ++ [u], profiles := s.profiles ++ [p], outbox := out })

/-- A profile is removed by the sweep when its owning user is missing
(orphan) or inactive with an expired key (spec §4.1,
`delete_expired_users`). -/
def profileDoomed (cfg : Config) (now : Nat) (users : List User) (p : Profile) : Bool :=
  match findUser users p.userId with
  | none => true
  | some u => !u.is_active && activation_key_expired cfg now u p

/-- A user is removed by the sweep when it is inactive and owns a profile
with an expired key (spec §4.1, `delete_expired_users`). -/
def userDoomed (cfg : Config) (now : Nat) (profiles : List Profile) (u : User) : Bool :=
  !u.is_active &&
    (match findProfileByUser profiles u.id with
     | none => false
     | some p => activation_key_expired cfg now u p)

/-- Modelled from the spec: `delete_expired_users` — scans all profiles,
deleting each inactive owning user with an expired key (cascading the
profile) and deleting orphaned profiles directly; no email is sent
(spec §4.1). -/
def delete_expired_users (cfg : Config) (now : Nat) (s : Store) : Store :=
  { s with users := s.users.filter (fun u => !(userDoomed cfg now s.profiles u)),
           profiles := s.profiles.filter (fun p => !(profileDoomed cfg now s.users p)) }

/-- Manual deactivation of a user outside the store's operations, as the
test suite performs it (`is_active` written back to false and saved). -/
def deactivate (uid : Nat) (s : Store) : Store :=
  { s with users := s.users.map (fun x => if x.id == uid then { x with is_active := false } else x) }

/-!
Concrete scenario data used by the witness theorems and counterexamples:
a seven-day activation window, two administrators, user `alice` with a
fresh profile, and the stores reached by running the operations on them.
-/

def wKey : String := String.mk (List.replicate 40 'a')
def wKey2 : String := String.mk (List.replicate 40 'b')
def wCfg : Config := ⟨7, ["admin1@x", "admin2@x"]⟩
def wU0 : User := ⟨1, "alice", "alice@x", false, 0⟩
def wP0 : Profile := ⟨1, 1, wKey, false⟩
def wS0 : Store := ⟨[wU0], [wP0], []⟩
def wPSent : Profile := ⟨1, 1, ACTIVATED, true⟩
def wP1 : Profile := ⟨1, 1, wKey, true⟩
def wS1 : Store := ⟨[wU0], [wP1], [⟨EmailKind.adminApprove, ["admin1@x", "admin2@x"]⟩]⟩
def wU2 : User := ⟨1, "alice", "alice@x", true, 0⟩
def wS2 : Store := ⟨[wU2], [wP1],
  [⟨EmailKind.adminApprove, ["admin1@x", "admin2@x"]⟩, ⟨EmailKind.approveComplete, ["alice@x"]⟩]⟩
def wS1std : Store := ⟨[wU2], [wPSent], []⟩
def c4U : User := ⟨2, "carol", "carol@x", false, 0⟩
def c4P : Profile := ⟨2, 2, String.mk (List.replicate 40 'c'), true⟩
def c4S : Store := ⟨[c4U], [c4P], []⟩
def c9Key : String := String.mk (List.replicate 40 'd')
def c9S : Store := ⟨[], [], []⟩

theorem sha1Key_ne_sentinel {k : String} (hk : isSHA1Key k = true) : k ≠ ACTIVATED := by
  intro h
  rw [h] at hk
  exact absurd hk (by decide)

theorem activate_user_supervised_success (cfg : Config) (now : Nat) (key : String)
    (s s' : Store) (u : User) (p : Profile)
    (h : activate_user Variant.supervised cfg now key s = (some (u, p), s')) :
    ∃ p₀, findProfileByKey s.profiles key = some p₀ ∧
      findUser s.users p₀.userId = some u ∧
      activation_key_expired cfg now u p₀ = false ∧
      p = { p₀ with activated := true } ∧
      s' = { s with profiles := updateProfile s.profiles { p₀ with activated := true },
                    outbox := s.outbox ++ [⟨EmailKind.adminApprove, cfg.admins⟩] } := by
  unfold activate_user at h
  split at h
  · split at h
    · simp at h
    · next p₀ hp =>
      split at h
      · simp at h
      · next u₀ hu =>
        split at h
        · simp at h
        · next hexp =>
          simp only [Prod.mk.injEq, Option.some.injEq] at h
          obtain ⟨⟨hu1, hp1⟩, hs1⟩ := h
          exact ⟨p₀, hp, hu1 ▸ hu, by simpa [hu1] using Bool.of_not_eq_true hexp, hp1.symm, hs1.symm⟩
  · simp at h

theorem activate_user_standard_success (cfg : Config) (now : Nat) (key : String)
    (s s' : Store) (u : User) (p : Profile)
    (h : activate_user Variant.standard cfg now key s = (some (u, p), s')) :
    isSHA1Key key = true ∧
    ∃ p₀ u₀, findProfileByKey s.profiles key = some p₀ ∧
      findUser s.users p₀.userId = some u₀ ∧
      activation_key_expired cfg now u₀ p₀ = false ∧
      u = { u₀ with is_active := true } ∧
      p = { p₀ with activated := true, activation_key := ACTIVATED } ∧
      s' = { s with users := updateUser s.users { u₀ with is_active := true },
                    profiles := updateProfile s.profiles
                      { p₀ with activated := true, activation_key := ACTIVATED } } := by
  unfold activate_user at h
  split at h
  · next hkey =>
    split at h
    · simp at h
    · next p₀ hp =>
      split at h
      · simp at h
      · next u₀ hu =>
        split at h
        · simp at h
        · next hexp =>
          simp only [Prod.mk.injEq, Option.some.injEq] at h
          obtain ⟨⟨hu1, hp1⟩, hs1⟩ := h
          exact ⟨hkey, p₀, u₀, hp, hu,
            Bool.of_not_eq_true hexp, hu1.symm, hp1.symm, hs1.symm⟩
  · simp at h

theorem admin_approve_user_success (cfg : Config) (pid : Nat)
    (s s' : Store) (u' : User)
    (h : admin_approve_user cfg pid s = (some u', s')) :
    ∃ p u, findProfileById s.profiles pid = some p ∧ p.activated = true ∧
      findUser s.users p.userId = some u ∧ u' = { u with is_active := true } ∧
      s' = { s with users := updateUser s.users { u with is_active := true },
                    outbox := s.outbox ++ [⟨EmailKind.approveComplete, [u.email]⟩] } := by
  unfold admin_approve_user at h
  split at h
  · simp at h
  · next p hp =>
    split at h
    · next hact =>
      split at h
      · simp at h
      · next w hw =>
        simp only [Prod.mk.injEq, Option.some.injEq] at h
        exact ⟨p, w, hp, hact, hw, h.1.symm, h.2.symm⟩
    · simp at h

theorem findUser_updateUser (l : List User) (uid : Nat) (u u' : User)
    (h : findUser l uid = some u) (hid : u'.id = uid) :
    findUser (updateUser l u') uid = some u' := by
  induction l with
  | nil => simp [findUser] at h
  | cons x xs ih =>
    by_cases hx : x.id = uid
    · simp [findUser, updateUser, hx, hid]
    · have h' : findUser xs uid = some u := by
        simpa [findUser, hx] using h
      simpa [findUser, updateUser, hx, hid] using ih h'

/-- Claim C1: a consumed activation key (the sentinel) always makes `activate_user`
return failure with the store untouched, in both variants. -/
theorem consumed_key_reactivation_fails (v : Variant) (cfg : Config) (now : Nat)
    (s : Store) (p : Profile) (hp : p.activation_key = ACTIVATED) :
    activate_user v cfg now p.activation_key s = (none, s) := by
  rw [hp]
  unfold activate_user
  rw [show isSHA1Key ACTIVATED = false by decide]
  simp

theorem consumed_key_reactivation_fails_w :
    activate_user Variant.supervised wCfg 9 wPSent.activation_key wS0 = (none, wS0) :=
  consumed_key_reactivation_fails Variant.supervised wCfg 9 wS0 wPSent (by decide)

/-- Claim C2: in the supervised variant a successful activation marks the profile
activated while touching no user record (the activated user's `is_active`
flag stays false), and only a subsequent successful `admin_approve_user`
yields a user whose `is_active` flag is true. -/
theorem supervised_activation_waits_for_approval (cfg : Config) (now : Nat)
    (key : String) (s s' s'' : Store) (u u' : User) (p : Profile)
    (h : activate_user Variant.supervised cfg now key s = (some (u, p), s'))
    (h2 : admin_approve_user cfg p.id s' = (some u', s'')) :
    p.activated = true ∧ s'.users = s.users ∧ u'.is_active = true := by
  obtain ⟨p₀, _, _, _, hp1, hs1⟩ := activate_user_supervised_success cfg now key s s' u p h
  obtain ⟨q, w, _, _, _, hu', _⟩ := admin_approve_user_success cfg p.id s' s'' u' h2
  refine ⟨by rw [hp1], by rw [hs1], by rw [hu']⟩

theorem supervised_activation_waits_for_approval_w :
    wP1.activated = true ∧ wS1.users = wS0.users ∧ wU2.is_active = true :=
  supervised_activation_waits_for_approval wCfg 0 wKey wS0 wS1 wS2 wU0 wU2 wP1
    (by decide) (by decide)

/-- Claim C3: `activation_key_expired` holds exactly when the key is the sentinel or
the join timestamp plus the configured window has reached the current time;
equality at the boundary counts as expired. -/
theorem activation_key_expired_iff (cfg : Config) (now : Nat) (u : User) (p : Profile) :
    activation_key_expired cfg now u p = true ↔
      (p.activation_key = ACTIVATED ∨ u.date_joined + cfg.window ≤ now) := by
  simp [activation_key_expired]

theorem activation_key_expired_iff_w :
    activation_key_expired wCfg 7 wU0 wP0 = true ↔
      (wP0.activation_key = ACTIVATED ∨ wU0.date_joined + wCfg.window ≤ 7) :=
  activation_key_expired_iff wCfg 7 wU0 wP0

/-- Claim C4 counterexample: an inactive user whose profile is activated but whose
key is expired IS deleted by the sweep, so the sweep does not spare users
merely because their profile's activated flag is set. -/
theorem sweep_deletes_activated_profile_user_cex :
    c4P.activated = true ∧ c4U.is_active = false ∧
    (delete_expired_users ⟨7, []⟩ 8 c4S).users = [] ∧
    (delete_expired_users ⟨7, []⟩ 8 c4S).profiles = [] := by decide

/-- Claim C4 amended: the sweep keeps a user exactly when the user is active or
owns no expired profile; active users are always kept; orphaned profiles
are removed without failing. -/
theorem delete_expired_users_characterization (cfg : Config) (now : Nat) (s : Store)
    (u : User) (hu : u ∈ s.users) :
    (u ∈ (delete_expired_users cfg now s).users ↔
       ¬ (u.is_active = false ∧ ∃ p, findProfileByUser s.profiles u.id = some p ∧
            activation_key_expired cfg now u p = true)) ∧
    (u.is_active = true → u ∈ (delete_expired_users cfg now s).users) ∧
    (∀ p ∈ s.profiles, findUser s.users p.userId = none →
       p ∉ (delete_expired_users cfg now s).profiles) := by
  have hchar : u ∈ (delete_expired_users cfg now s).users ↔
      ¬ (u.is_active = false ∧ ∃ p, findProfileByUser s.profiles u.id = some p ∧
           activation_key_expired cfg now u p = true) := by
    unfold delete_expired_users
    simp only [List.mem_filter, hu, true_and, Bool.not_eq_true']
    unfold userDoomed
    cases hf : findProfileByUser s.profiles u.id with
    | none => simp [hf]
    | some p =>
      cases ha : u.is_active with
      | true => simp [ha]
      | false =>
        cases he : activation_key_expired cfg now u p with
        | true => simp [ha, he]
        | false => simp [ha, he]
  refine ⟨hchar, ?_, ?_⟩
  · intro ha
    rw [hchar]
    intro hcon
    rw [ha] at hcon
    exact absurd hcon.1 (by simp)
  · intro p hp horph
    unfold delete_expired_users
    simp only [List.mem_filter, Bool.not_eq_true']
    intro hcon
    unfold profileDoomed at hcon
    rw [horph] at hcon
    simp at hcon

theorem delete_expired_users_characterization_w :
    (c4U ∈ (delete_expired_users wCfg 3 c4S).users ↔
       ¬ (c4U.is_active = false ∧ ∃ p, findProfileByUser c4S.profiles c4U.id = some p ∧
            activation_key_expired wCfg 3 c4U p = true)) ∧
    (c4U.is_active = true → c4U ∈ (delete_expired_users wCfg 3 c4S).users) ∧
    (∀ p ∈ c4S.profiles, findUser c4S.users p.userId = none →
       p ∉ (delete_expired_users wCfg 3 c4S).profiles) :=
  delete_expired_users_characterization wCfg 3 c4S c4U (by decide)

/-- Claim C5: a key that fails the 40-character lowercase-hex shape makes
`activate_user` fail with the store untouched, before any lookup. -/
theorem malformed_key_activation_noop (v : Variant) (cfg : Config) (now : Nat)
    (key : String) (s : Store) (h : isSHA1Key key = false) :
    activate_user v cfg now key s = (none, s) := by
  unfold activate_user
  rw [h]
  simp

theorem malformed_key_activation_noop_w :
    activate_user Variant.standard wCfg 0 "foo" wS0 = (none, wS0) :=
  malformed_key_activation_noop Variant.standard wCfg 0 "foo" wS0 (by decide)

/-- Claim C6: resend regenerates the key and sends one activation email on an
unexpired, unactivated profile; a missing address, a standard-variant
activated profile, or an expired key yields false with no mail. -/
theorem resend_activation_mail_cases (v : Variant) (cfg : Config) (now : Nat)
    (email newKey : String) (s : Store) :
    (findUserByEmail s.users email = none →
       resend_activation_mail v cfg now email newKey s = (false, s)) ∧
    (∀ u p, findUserByEmail s.users email = some u →
       findProfileByUser s.profiles u.id = some p → p.activated = true →
       resend_activation_mail Variant.standard cfg now email newKey s = (false, s)) ∧
    (∀ u p, findUserByEmail s.users email = some u →
       findProfileByUser s.profiles u.id = some p → p.activated = false →
       activation_key_expired cfg now u p = true →
       resend_activation_mail v cfg now email newKey s = (false, s)) ∧
    (∀ u p, findUserByEmail s.users email = some u →
       findProfileByUser s.profiles u.id = some p → p.activated = false →
       activation_key_expired cfg now u p = false → newKey ≠ p.activation_key →
       resend_activation_mail v cfg now email newKey s =
         (true, { s with profiles := updateProfile s.profiles { p with activation_key := newKey },
                         outbox := s.outbox ++ [⟨EmailKind.activationMail, [u.email]⟩] }) ∧
       (resend_activation_mail v cfg now email newKey s).2.outbox.length
         = s.outbox.length + 1) := by
  refine ⟨?_, ?_, ?_, ?_⟩
  · intro h
    simp [resend_activation_mail, h]
  · intro u p hu hp hact
    simp [resend_activation_mail, hu, hp, hact]
  · intro u p hu hp hact hexp
    simp [resend_activation_mail, hu, hp, hact, hexp]
  · intro u p hu hp hact hexp hnew
    have heq : resend_activation_mail v cfg now email newKey s =
        (true, { s with profiles := updateProfile s.profiles { p with activation_key := newKey },
                        outbox := s.outbox ++ [⟨EmailKind.activationMail, [u.email]⟩] }) := by
      simp [resend_activation_mail, hu, hp, hact, hexp]
    exact ⟨heq, by rw [heq]; simp⟩

theorem resend_activation_mail_cases_w :
    resend_activation_mail Variant.standard wCfg 0 "alice@x" wKey2 wS0 =
      (true, { wS0 with profiles := updateProfile wS0.profiles { wP0 with activation_key := wKey2 },
                        outbox := wS0.outbox ++ [⟨EmailKind.activationMail, [wU0.email]⟩] }) ∧
    (resend_activation_mail Variant.standard wCfg 0 "alice@x" wKey2 wS0).2.outbox.length
      = wS0.outbox.length + 1 :=
  (resend_activation_mail_cases Variant.standard wCfg 0 "alice@x" wKey2 wS0).2.2.2 wU0 wP0
    (by decide) (by decide) (by decide) (by decide) (by decide)

/-- Claim C7: `admin_approve_user` fails and leaves the store untouched on a missing
or never-activated profile; on an activated profile it sets the user active,
appends a completion notice to the user, and returns the user; and a repeat
call on the already-approved profile again returns the active user. -/
theorem admin_approve_user_cases (cfg : Config) (pid : Nat) (s : Store) :
    (findProfileById s.profiles pid = none → admin_approve_user cfg pid s = (none, s)) ∧
    (∀ p, findProfileById s.profiles pid = some p → p.activated = false →
       admin_approve_user cfg pid s = (none, s)) ∧
    (∀ p u, findProfileById s.profiles pid = some p → p.activated = true →
       findUser s.users p.userId = some u →
       admin_approve_user cfg pid s =
         (some { u with is_active := true },
          { s with users := updateUser s.users { u with is_active := true },
                   outbox := s.outbox ++ [⟨EmailKind.approveComplete, [u.email]⟩] })) ∧
    (∀ p u, findProfileById s.profiles pid = some p → p.activated = true →
       findUser s.users p.userId = some u →
       (admin_approve_user cfg pid ((admin_approve_user cfg pid s).2)).1 =
         some { u with is_active := true }) := by
  have third : ∀ p u, findProfileById s.profiles pid = some p → p.activated = true →
      findUser s.users p.userId = some u →
      admin_approve_user cfg pid s =
        (some { u with is_active := true },
         { s with users := updateUser s.users { u with is_active := true },
                  outbox := s.outbox ++ [⟨EmailKind.approveComplete, [u.email]⟩] }) := by
    intro p u hp hact hu
    unfold admin_approve_user
    rw [hp]
    simp [hact, hu]
  refine ⟨?_, ?_, third, ?_⟩
  · intro h
    unfold admin_approve_user
    rw [h]
  · intro p hp hact
    unfold admin_approve_user
    rw [hp]
    simp [hact]
  · intro p u hp hact hu
    rw [third p u hp hact hu]
    have huid : u.id = p.userId := by
      unfold findUser at hu
      have h5 := List.find?_some hu
      simpa using h5
    have hfind : findUser (updateUser s.users { u with is_active := true }) p.userId =
        some { u with is_active := true } :=
      findUser_updateUser s.users p.userId u { u with is_active := true } hu (by simpa using huid)
    simp [admin_approve_user, hp, hact, hfind]

theorem admin_approve_user_cases_w :
    admin_approve_user wCfg 1 wS1 =
      (some { wU0 with is_active := true },
       { wS1 with users := updateUser wS1.users { wU0 with is_active := true },
                  outbox := wS1.outbox ++ [⟨EmailKind.approveComplete, [wU0.email]⟩] }) :=
  (admin_approve_user_cases wCfg 1 wS1).2.2.1 wP1 wU0 (by decide) (by decide) (by decide)

/-- Claim C8: supervised resend for an activated profile whose user is still
inactive appends exactly one admin-approval notice addressed to the
configured administrator list and still reports false. -/
theorem supervised_resend_activated_notifies_admins (cfg : Config) (now : Nat)
    (email newKey : String) (s : Store) (u : User) (p : Profile)
    (hu : findUserByEmail s.users email = some u)
    (hp : findProfileByUser s.profiles u.id = some p)
    (hact : p.activated = true) (hin : u.is_active = false) :
    resend_activation_mail Variant.supervised cfg now email newKey s =
      (false, { s with outbox := s.outbox ++ [⟨EmailKind.adminApprove, cfg.admins⟩] }) := by
  simp [resend_activation_mail, hu, hp, hact, hin]

theorem supervised_resend_activated_notifies_admins_w :
    resend_activation_mail Variant.supervised wCfg 0 "alice@x" wKey2 wS1 =
      (false, { wS1 with outbox := wS1.outbox ++ [⟨EmailKind.adminApprove, wCfg.admins⟩] }) :=
  supervised_resend_activated_notifies_admins wCfg 0 "alice@x" wKey2 wS1 wU0 wP1
    (by decide) (by decide) (by decide) (by decide)

/-- Claim C9 counterexample: a supplied join timestamp exactly the activation
window in the past is not reset (only strictly older ones are), and the
freshly created profile is then already expired at creation time. -/
theorem creation_at_window_boundary_expired_cex :
    isSHA1Key c9Key = true ∧
    (create_inactive_user ⟨7, []⟩ 7 1 1 "alice" "alice@x" 0 c9Key true c9S).1.is_active = false ∧
    (create_inactive_user ⟨7, []⟩ 7 1 1 "alice" "alice@x" 0 c9Key true c9S).1.date_joined = 0 ∧
    (create_inactive_user ⟨7, []⟩ 7 1 1 "alice" "alice@x" 0 c9Key true c9S).2.profiles
      = [⟨1, 1, c9Key, false⟩] ∧
    activation_key_expired ⟨7, []⟩ 7
      (create_inactive_user ⟨7, []⟩ 7 1 1 "alice" "alice@x" 0 c9Key true c9S).1
      ⟨1, 1, c9Key, false⟩ = true := by decide

/-- Claim C9 amended: creation yields an inactive user and stores a profile
carrying the generated 40-hex key; a join timestamp more than the window in
the past is reset to now; and the profile is unexpired immediately after
creation provided the window is positive and the supplied timestamp is not
exactly the window in the past. -/
theorem create_inactive_user_fresh (cfg : Config) (now uid pid : Nat)
    (username email : String) (sj : Nat) (key : String) (se : Bool) (s : Store)
    (hk : isSHA1Key key = true) (hw : 0 < cfg.window) (hb : sj + cfg.window ≠ now) :
    (create_inactive_user cfg now uid pid username email sj key se s).1.is_active = false ∧
    (create_inactive_user cfg now uid pid username email sj key se s).2.profiles
      = s.profiles ++ [⟨pid, uid, key, false⟩] ∧
    (sj + cfg.window < now →
       (create_inactive_user cfg now uid pid username email sj key se s).1.date_joined = now) ∧
    activation_key_expired cfg now
      (create_inactive_user cfg now uid pid username email sj key se s).1
      ⟨pid, uid, key, false⟩ = false := by
  have hkeyb : (key == ACTIVATED) = false := by
    simpa using sha1Key_ne_sentinel hk
  unfold create_inactive_user activation_key_expired
  by_cases hc : sj + cfg.window < now <;> simp [hc, hkeyb] <;> omega

theorem create_inactive_user_fresh_w :
    (create_inactive_user wCfg 20 3 3 "dave" "dave@x" 0 c9Key true c9S).1.is_active = false ∧
    (create_inactive_user wCfg 20 3 3 "dave" "dave@x" 0 c9Key true c9S).2.profiles
      = c9S.profiles ++ [⟨3, 3, c9Key, false⟩] ∧
    (0 + wCfg.window < 20 →
       (create_inactive_user wCfg 20 3 3 "dave" "dave@x" 0 c9Key true c9S).1.date_joined = 20) ∧
    activation_key_expired wCfg 20
      (create_inactive_user wCfg 20 3 3 "dave" "dave@x" 0 c9Key true c9S).1
      ⟨3, 3, c9Key, false⟩ = false :=
  create_inactive_user_fresh wCfg 20 3 3 "dave" "dave@x" 0 c9Key true c9S
    (by decide) (by decide) (by decide)

/-- Claim C10: after a successful standard activation, the original key (unique to
the consumed profile) no longer activates: a later call on the manually
deactivated store fails, leaves the store untouched, and the user stays
inactive. -/
theorem deactivated_user_not_reactivable (cfg : Config) (now now2 : Nat) (key : String)
    (s s' : Store) (u : User) (p : Profile)
    (h : activate_user Variant.standard cfg now key s = (some (u, p), s'))
    (huniq : ∀ q ∈ s.profiles, q.activation_key = key → q.id = p.id) :
    activate_user Variant.standard cfg now2 key (deactivate u.id s') =
      (none, deactivate u.id s') ∧
    ∀ w ∈ (deactivate u.id s').users, w.id = u.id → w.is_active = false := by
  obtain ⟨hkey, p₀, u₀, hp, hu, hexp, hu1, hp1, hs1⟩ :=
    activate_user_standard_success cfg now key s s' u p h
  have hppid : p.id = p₀.id := by rw [hp1]
  have hnotk : key ≠ ACTIVATED := sha1Key_ne_sentinel hkey
  constructor
  · have hfind : findProfileByKey (deactivate u.id s').profiles key = none := by
      have hprof : (deactivate u.id s').profiles =
          updateProfile s.profiles { p₀ with activated := true, activation_key := ACTIVATED } := by
        rw [hs1]; rfl
      rw [hprof]
      unfold findProfileByKey
      rw [List.find?_eq_none]
      intro x hx
      unfold updateProfile at hx
      obtain ⟨y, hy, hyx⟩ := List.mem_map.mp hx
      by_cases hid : y.id = p₀.id
      · simp only [hid, beq_self_eq_true, if_true] at hyx
        rw [← hyx]
        intro hcontra
        have hx2 : ACTIVATED = key := by simpa using hcontra
        exact hnotk hx2.symm
      · simp only [beq_iff_eq, hid, if_false] at hyx
        rw [← hyx]
        simp only [beq_iff_eq]
        intro hyk
        exact hid (hppid ▸ huniq y hy hyk)
    unfold activate_user
    rw [hkey, hfind]
    simp
  · intro w hw hwid
    have hdu : (deactivate u.id s').users =
        s'.users.map (fun x => if x.id == u.id then { x with is_active := false } else x) := rfl
    rw [hdu] at hw
    obtain ⟨x, hx, hxw⟩ := List.mem_map.mp hw
    by_cases hxid : x.id = u.id
    · simp only [hxid, beq_self_eq_true, if_true] at hxw
      rw [← hxw]
    · simp only [beq_iff_eq, hxid, if_false] at hxw
      rw [← hxw] at hwid
      exact absurd hwid hxid

theorem deactivated_user_not_reactivable_w :
    activate_user Variant.standard wCfg 5 wKey (deactivate wU2.id wS1std) =
      (none, deactivate wU2.id wS1std) :=
  (deactivated_user_not_reactivable wCfg 0 5 wKey wS0 wS1std wU2 wPSent
    (by decide) (by decide)).1

end Registration
